import Mathlib

/-!
Verification development for the `ai4scr-data` repository.

The Python sources are shallowly embedded: the filesystem is an association
list from path strings to file contents, Python exceptions become an error
type threaded through `Except`, and the side-effecting dataset lifecycle
(`AI4SCRDataset.__init__` / `setup` and its mixins) becomes an explicit state
transformer that also records an event log (downloads, raw processing, recipe
application, cache reads and writes).
-/

namespace AI4SCRData

/-- Kinds of Python exceptions raised by the modelled code. -/
inductive PyErr where
  | typeError
  | keyError
  | valueError
  | fileNotFoundError
  | attributeError
  | indexError
  | keyboardInterrupt
  | urlError
deriving DecidableEq, Repr

/-- A directory (or a whole filesystem) as an association list from path
names to file contents. -/
abbrev FS (α : Type) := List (String × α)

/-- Content stored at path `p`, if a file exists there. -/
def getFile {α : Type} (fs : FS α) (p : String) : Option α :=
  match fs with
  | [] => none
  | (q, v) :: rest => if q = p then some v else getFile rest p

/-- Models `Path.is_file()` / `os.path.isfile`. -/
def isFile {α : Type} (fs : FS α) (p : String) : Bool :=
  (getFile fs p).isSome

/-- Models `Path.unlink()`: remove the file at `p`. -/
def removeFile {α : Type} (fs : FS α) (p : String) : FS α :=
  fs.filter (fun kv => kv.1 != p)

/-- Models writing content `v` at path `p` (create or overwrite). -/
def setFile {α : Type} (fs : FS α) (p : String) (v : α) : FS α :=
  (p, v) :: removeFile fs p

theorem getFile_removeFile_self {α : Type} (fs : FS α) (p : String) :
    getFile (removeFile fs p) p = none := by
  induction fs with
  | nil => rfl
  | cons kv rest ih =>
    by_cases h : kv.1 = p
    · simp only [removeFile, List.filter_cons, h, bne_self_eq_false, cond_false,
        Bool.false_eq_true, if_false]
      simpa [removeFile] using ih
    · simp only [removeFile, List.filter_cons, bne_iff_ne, ne_eq, h,
        not_false_eq_true, if_true, getFile, if_neg h]
      simpa [removeFile] using ih

theorem isFile_removeFile_self {α : Type} (fs : FS α) (p : String) :
    isFile (removeFile fs p) p = false := by
  simp [isFile, getFile_removeFile_self]

theorem getFile_setFile_self {α : Type} (fs : FS α) (p : String) (v : α) :
    getFile (setFile fs p v) p = some v := by
  simp [setFile, getFile]

theorem isFile_setFile_self {α : Type} (fs : FS α) (p : String) (v : α) :
    isFile (setFile fs p v) p = true := by
  simp [isFile, getFile_setFile_self]

/-! ## Download Fetcher (`_download_progress` from datasets.py and data.py)

The streamed transfer is modelled by the list of blocks the remote yields and
by the point at which a failure (network error, write error, or an external
`KeyboardInterrupt`) strikes: before the destination is opened (e.g. inside
`urlopen`), or after `k` blocks have been written. -/

/-- Where, if anywhere, the transfer fails. -/
inductive FailMode where
  | noFail
  | atOpen (e : PyErr)
  | during (k : Nat) (e : PyErr)
deriving DecidableEq, Repr

/-- The exception a failing transfer raises, if any. -/
def failErr : FailMode → Option PyErr
  | .noFail => none
  | .atOpen e => some e
  | .during _ e => some e

/-- Model of `_download_progress(fpath, url)`.  On success the destination
holds all blocks.  On failure the `except (KeyboardInterrupt, Exception)`
handler runs: if the destination is a file it is unlinked, and the original
exception is re-raised (`raise`). -/
def download_progress (fs : FS (List Nat)) (fpath : String)
    (blocks : List (List Nat)) (fail : FailMode) :
    Except PyErr Unit × FS (List Nat) :=
  match fail with
  | .noFail => (.ok (), setFile fs fpath blocks.flatten)
  | .atOpen e =>
    (.error e, if isFile fs fpath then removeFile fs fpath else fs)
  | .during k e =>
    let fs1 := setFile fs fpath ((blocks.take k).flatten)
    (.error e, if isFile fs1 fpath then removeFile fs1 fpath else fs1)

/-- C1: if any failure occurs during a `_download_progress` transfer —
including an external `KeyboardInterrupt` — then afterwards the destination
file does not exist (so a cache-existence check such as `has_cache_raw`
reports false) and the original error is re-raised to the caller. -/
theorem C1_download_cleanup (fs : FS (List Nat)) (fpath : String)
    (blocks : List (List Nat)) (fail : FailMode) (e : PyErr)
    (h : failErr fail = some e) :
    (download_progress fs fpath blocks fail).1 = .error e ∧
      isFile (download_progress fs fpath blocks fail).2 fpath = false := by
  cases fail with
  | noFail => simp [failErr] at h
  | atOpen e0 =>
    simp only [failErr, Option.some.injEq] at h
    subst h
    refine ⟨rfl, ?_⟩
    by_cases hf : isFile fs fpath
    · simp [download_progress, hf, isFile_removeFile_self]
    · have hf2 : isFile fs fpath = false := by simpa using hf
      simp [download_progress, hf2]
  | during k e0 =>
    simp only [failErr, Option.some.injEq] at h
    subst h
    refine ⟨rfl, ?_⟩
    simp [download_progress, isFile_setFile_self, isFile_removeFile_self]

theorem C1_download_cleanup_witness :
    failErr (.during 1 .keyboardInterrupt) = some PyErr.keyboardInterrupt ∧
      ((download_progress [("dest", [7])] "dest" [[1, 2], [3]]
          (.during 1 .keyboardInterrupt)).1 = .error PyErr.keyboardInterrupt ∧
        isFile (download_progress [("dest", [7])] "dest" [[1, 2], [3]]
          (.during 1 .keyboardInterrupt)).2 "dest" = false) :=
  ⟨rfl, C1_download_cleanup [("dest", [7])] "dest" [[1, 2], [3]]
    (.during 1 .keyboardInterrupt) PyErr.keyboardInterrupt rfl⟩

/-! ## Recipe Registry (`RecipeMixIn` from datasets.py)

Recipe transformation functions are modelled as `Nat → Nat` (the payload type
of the embedding); `recipes` is the process-wide dict from name to function. -/

/-- The `RecipeMixIn.recipes` dict. -/
abbrev Registry := FS (Nat → Nat)

/-- Dict lookup `recipes[name]` as an `Option`. -/
def lookupRecipe (reg : Registry) (name : String) : Option (Nat → Nat) :=
  getFile reg name

/-- Model of `RecipeMixIn.register_recipe(name)` applied to a function:
the body runs `cls.recipes[name] = recipe` — a plain dict assignment. -/
def register_recipe (reg : Registry) (name : String) (recipe : Nat → Nat) :
    Registry :=
  setFile reg name recipe

/-- C5 counterexample: registering a second function under an
already-registered name does not fail with any `DuplicateRecipeError`; the
registry now maps the name to the second function (evaluated at 0, the first
function gives 0 and the second gives 1, and the lookup returns 1). -/
theorem C5_register_recipe_counterexample :
    (lookupRecipe (register_recipe (register_recipe [] "tokenize" (fun n => n))
        "tokenize" (fun n => n + 1)) "tokenize").map (fun f => f 0) = some 1 := rfl

/-- C5 (amended): registering a function under an already-present name
silently replaces the previously registered function — the registration is a
plain dict assignment that cannot raise, and afterwards the name resolves to
the newly registered function. -/
theorem C5_register_recipe_overwrites (reg : Registry) (name : String)
    (f : Nat → Nat) :
    lookupRecipe (register_recipe reg name f) name = some f := by
  simp [lookupRecipe, register_recipe, getFile_setFile_self]

/-! ## Recipe cache filenames (C7) -/

/-- `AI4SCRDataset.get_recipe_filename(recipe)`: the f-string
`{dataset_name}_{recipe}.pkl`. -/
def get_recipe_filename (dataset_name recipe : String) : String :=
  dataset_name ++ "_" ++ recipe ++ ".pkl"

/-- `DataSet.get_rpath(recipe)` from data.py:
`self.path / f'{self.name}_recipe_{recipe}.pkl'`. -/
def get_rpath (path name recipe : String) : String :=
  path ++ "/" ++ (name ++ "_recipe_" ++ recipe ++ ".pkl")

/-- C7 counterexample: for the `DataSet` class of data.py the persisted
recipe file is NOT named `<entity>_<recipe>.pkl` — at entity name
`example_set` and recipe `default` the path contains the extra separator
`_recipe_`. -/
theorem C7_recipe_filename_counterexample :
    get_rpath "/root" "example_set" "default" ≠
      "/root" ++ "/" ++ get_recipe_filename "example_set" "default" := by
  decide

/-- C7 (amended): `AI4SCRDataset` (datasets.py) persists recipe results under
`<entity>_<recipe>.pkl` with a single underscore separator, while `DataSet`
(data.py) persists them under `<entity>_recipe_<recipe>.pkl`, inserting the
extra `_recipe_` separator between entity name and recipe name. -/
theorem C7_recipe_filename_forms (path name recipe : String) :
    get_recipe_filename name recipe = name ++ "_" ++ recipe ++ ".pkl" ∧
      get_rpath path name recipe =
        path ++ "/" ++ (name ++ "_recipe_" ++ recipe ++ ".pkl") :=
  ⟨rfl, rfl⟩

/-! ## `DataSet.get_rfunc` (C9) -/

/-- A Python attribute value as observed by `DataSet.get_rfunc`:
`None`, a callable (bound method), or some non-callable value. -/
inductive PyVal where
  | noneVal
  | func (f : Nat → Nat)
  | str (s : String)

/-- Truthiness of the literal `None` tested by the `if None:` line. -/
def pyNoneTruthy : Bool := false

/-- `isinstance(func, Callable)`. -/
def isinstance_Callable : PyVal → Bool
  | .func _ => true
  | _ => false

/-- Model of `DataSet.get_rfunc(recipe)`: `func = getattr(self,
f'recipe_{recipe}', None)` over the instance attribute table `attrs`
(a missing attribute yields the `None` default), then the literal test
`if None:`, then `elif isinstance(func, Callable)`, else `TypeError`. -/
def get_rfunc (attrs : FS PyVal) (recipe : String) : Except PyErr PyVal :=
  let func := (getFile attrs ("recipe_" ++ recipe)).getD .noneVal
  if pyNoneTruthy then .error .attributeError
  else if isinstance_Callable func then .ok func
  else .error .typeError

/-- C9: `get_rfunc` never raises `AttributeError` — the `if None:` guard is
falsy for every input — and when no `recipe_<name>` attribute exists the call
instead raises `TypeError`. -/
theorem C9_get_rfunc_no_attribute_error (attrs : FS PyVal) (recipe : String) :
    get_rfunc attrs recipe ≠ .error .attributeError ∧
      (getFile attrs ("recipe_" ++ recipe) = none →
        get_rfunc attrs recipe = .error .typeError) := by
  constructor
  · simp only [get_rfunc, pyNoneTruthy, Bool.false_eq_true, if_false]
    split
    · simp
    · simp
  · intro h
    simp [get_rfunc, pyNoneTruthy, h, isinstance_Callable]

theorem C9_get_rfunc_no_attribute_error_witness :
    getFile ([] : FS PyVal) ("recipe_" ++ "shift_age") = none ∧
      get_rfunc [] "shift_age" = Except.error PyErr.typeError ∧
      get_rfunc [] "shift_age" ≠ Except.error PyErr.attributeError :=
  ⟨rfl, (C9_get_rfunc_no_attribute_error [] "shift_age").2 rfl,
    (C9_get_rfunc_no_attribute_error [] "shift_age").1⟩

/-! ## `DataSet.__init__` (C8) -/

/-- `DataSet._standardize_names` on a single string: lower-case, split on
whitespace runs, join with underscores. -/
def standardize_name (name : String) : String :=
  "_".intercalate
    ((name.toLower.split Char.isWhitespace).filter (fun s => s != ""))

/-- The module-level `ROOT` of data.py (`~/.ai4scr/datasets/`, expanded). -/
def ROOT : String := "~/.ai4scr/datasets"

/-- The object produced by a successful `DataSet.__init__`. -/
structure DataSetObj where
  name : String
  module : String
  url : String
  extension : String
  description : Option String
  path : String
  fpath : String
deriving DecidableEq, Repr

/-- Model of `DataSet.__init__`.  `dirs` models the set of existing
directories (for the `path` property setter's `is_dir` check; the
`path is None` branch first runs `mkdir(parents=True, exist_ok=True)`, so its
directory always exists).  The extension line
`extension if extension[0] == '.' else '.' + extension` subscripts
the argument: on `None` this raises `TypeError`, on the empty string
`IndexError`. -/
def DataSet_init (dirs : List String) (name module url : String)
    (extension : Option String) (description : Option String)
    (path : Option String) : Except PyErr DataSetObj :=
  let sname := standardize_name name
  let smodule := standardize_name module
  match extension with
  | none => .error .typeError
  | some e =>
    if e = "" then .error .indexError
    else
      let ext := if e.front = '.' then e else "." ++ e
      match path with
      | none =>
        let p := ROOT ++ "/" ++ smodule
        .ok { name := sname, module := smodule, url := url, extension := ext,
              description := description, path := p,
              fpath := p ++ "/" ++ (sname ++ ext) }
      | some p =>
        if p ∈ dirs then
          .ok { name := sname, module := smodule, url := url, extension := ext,
                description := description, path := p,
                fpath := p ++ "/" ++ (sname ++ ext) }
        else .error .valueError

/-- C8: calling `DataSet.__init__` with the default `extension=None` always
raises `TypeError` (from subscripting `None` in the extension-normalisation
line), for every combination of the other arguments — so the `Optional`
extension parameter can never actually be omitted. -/
theorem C8_extension_none_type_error (dirs : List String)
    (name module url : String) (description : Option String)
    (path : Option String) :
    DataSet_init dirs name module url none description path =
      .error .typeError := rfl

/-! ## `hash_configuration` (src/ai4scr_data_utility/hashing.py, C10)

`config` is a flat Python dict, embedded as an association list whose values
are already serialized; a dict built in any insertion order is a permutation
of the same entries, with pairwise-distinct keys.  `hashFn m s` stands for
`getattr(hashlib, m)(s.encode()).hexdigest()`. -/

/-- `hashlib.algorithms_available` (modelled by the guaranteed algorithms,
which are available on every platform). -/
def algorithms_available : List String :=
  ["md5", "sha1", "sha224", "sha256", "sha384", "sha512",
   "blake2b", "blake2s", "sha3_224", "sha3_256", "sha3_384", "sha3_512",
   "shake_128", "shake_256"]

/-- One serialized JSON object entry `"key": value`. -/
def jsonEntry (kv : String × String) : String :=
  "\"" ++ kv.1 ++ "\": " ++ kv.2

/-- Ordering of object entries by key, as produced by
`json.dumps(..., sort_keys=True)`. -/
def sortByKey (config : List (String × String)) : List (String × String) :=
  config.insertionSort (fun a b => a.1 ≤ b.1)

/-- `json.dumps(config, sort_keys=True)` on a flat object: entries sorted by
key, joined with the default `", "` separator, wrapped in braces. -/
def json_dumps_sorted (config : List (String × String)) : String :=
  "\x7b" ++ ", ".intercalate ((sortByKey config).map jsonEntry) ++ "\x7d"

/-- Model of `hash_configuration(config, method)`: reject unavailable hash
methods with `ValueError`, otherwise hash the canonically serialized dict. -/
def hash_configuration (hashFn : String → String → String)
    (config : List (String × String)) (method : String) : Except PyErr String :=
  if method ∉ algorithms_available then .error .valueError
  else .ok (hashFn method (json_dumps_sorted config))

theorem sortByKey_eq_of_perm (c1 c2 : List (String × String))
    (hperm : c1.Perm c2) (hnodup : (c1.map Prod.fst).Nodup) :
    sortByKey c1 = sortByKey c2 := by
  haveI htotal : IsTotal (String × String) (fun a b => a.1 ≤ b.1) :=
    ⟨fun a b => le_total a.1 b.1⟩
  haveI htrans : IsTrans (String × String) (fun a b => a.1 ≤ b.1) :=
    ⟨fun _ _ _ h1 h2 => le_trans h1 h2⟩
  haveI hanti : IsAntisymm (String × String) (fun a b => a.1 < b.1) :=
    ⟨fun a b h1 h2 => absurd (lt_trans h1 h2) (lt_irrefl _)⟩
  have hp1 : (sortByKey c1).Perm c1 := List.perm_insertionSort _ c1
  have hp2 : (sortByKey c2).Perm c2 := List.perm_insertionSort _ c2
  have hps : (sortByKey c1).Perm (sortByKey c2) :=
    (hp1.trans hperm).trans hp2.symm
  have hs1 : (sortByKey c1).Sorted (fun a b => a.1 ≤ b.1) :=
    List.sorted_insertionSort _ c1
  have hs2 : (sortByKey c2).Sorted (fun a b => a.1 ≤ b.1) :=
    List.sorted_insertionSort _ c2
  have hn1 : ((sortByKey c1).map Prod.fst).Nodup :=
    ((hp1.map Prod.fst).nodup_iff).mpr hnodup
  have hnodup2 : (c2.map Prod.fst).Nodup :=
    ((hperm.map Prod.fst).nodup_iff).mp hnodup
  have hn2 : ((sortByKey c2).map Prod.fst).Nodup :=
    ((hp2.map Prod.fst).nodup_iff).mpr hnodup2
  have strict : ∀ (l : List (String × String)),
      l.Sorted (fun a b => a.1 ≤ b.1) → (l.map Prod.fst).Nodup →
      l.Sorted (fun a b => a.1 < b.1) := by
    intro l hle hnd
    have hne : l.Pairwise (fun a b : String × String => a.1 ≠ b.1) :=
      List.pairwise_map.mp hnd
    exact (hle.and hne).imp (fun h => lt_of_le_of_ne h.1 h.2)
  exact List.eq_of_perm_of_sorted hps (strict _ hs1 hn1) (strict _ hs2 hn2)

/-- C10: `hash_configuration` is deterministic with respect to dict key
insertion order — two configs equal as mappings (a key permutation with
pairwise-distinct keys) hash to the same digest, because serialization sorts
keys — and for every method outside `hashlib.algorithms_available` it raises
`ValueError` without computing any hash (the result does not depend on the
hash function at all). -/
theorem C10_hash_configuration_deterministic
    (hashFn : String → String → String) (method : String)
    (c1 c2 : List (String × String)) :
    (c1.Perm c2 → (c1.map Prod.fst).Nodup →
        hash_configuration hashFn c1 method =
          hash_configuration hashFn c2 method) ∧
      (method ∉ algorithms_available →
        hash_configuration hashFn c1 method = .error .valueError) := by
  constructor
  · intro hperm hnodup
    simp only [hash_configuration, json_dumps_sorted,
      sortByKey_eq_of_perm c1 c2 hperm hnodup]
  · intro h
    simp [hash_configuration, h]

theorem C10_hash_configuration_deterministic_witness :
    (([("beta", "1"), ("alpha", "2")] : List (String × String)).Perm
        [("alpha", "2"), ("beta", "1")] ∧
      (([("beta", "1"), ("alpha", "2")] : List (String × String)).map
        Prod.fst).Nodup ∧
      hash_configuration (fun _ s => s) [("beta", "1"), ("alpha", "2")]
          "sha256" =
        hash_configuration (fun _ s => s) [("alpha", "2"), ("beta", "1")]
          "sha256") ∧
      ("nope" ∉ algorithms_available ∧
        hash_configuration (fun _ s => s) [("beta", "1"), ("alpha", "2")]
            "nope" =
          Except.error PyErr.valueError) :=
  ⟨⟨List.Perm.swap _ _ _, by decide,
      (C10_hash_configuration_deterministic (fun _ s => s) "sha256"
          [("beta", "1"), ("alpha", "2")] [("alpha", "2"), ("beta", "1")]).1
        (List.Perm.swap _ _ _) (by decide)⟩,
    ⟨by decide,
      (C10_hash_configuration_deterministic (fun _ s => s) "nope"
          [("beta", "1"), ("alpha", "2")] [("alpha", "2"), ("beta", "1")]).2
        (by decide)⟩⟩

/-! ## `AI4SCRDataset` lifecycle (datasets.py, C2 / C3 / C4 / C6)

The entity construction and `setup()` are embedded as explicit state
transformers over the filesystem, recording an event log of the observable
side effects (directory creation, download, raw processing, recipe
application, cache reads/writes).  Payloads are `Nat`. -/

/-- Observable side effects of the lifecycle. -/
inductive Event where
  | mkdirCache
  | download
  | processRawData
  | recipeApply (name : String)
  | loadCache (fname : String)
  | saveCache (fname : String)
deriving DecidableEq, Repr

/-- The fixed collaborators: the recipe registry, what the URL yields, and
the abstract `process_raw_data` (a function of the raw file's content at
`self.path`). -/
structure Env where
  recipes : Registry
  downloadContent : Nat
  processRaw : Option Nat → Nat

/-- The constructor arguments and identity of one dataset entity
(`module` and `dataset_name = type(self).__name__`). -/
structure Entity where
  module : String
  datasetName : String
  recipe : Option String
  forceDownload : Bool
  forceProcess : Bool

/-- Python truthiness of an optional string (`if path:` / `if self.recipe:`):
`None` and the empty string are falsy. -/
def pyTruthyStr (o : Option String) : Bool :=
  match o with
  | none => false
  | some s => s != ""

/-- `self.get_cache_path(fname)` = `cache_root / module / fname`
(`AI4SCRDataset.cache_root` is the expanded `~/.ai4scr/datasets`). -/
def cachePath (ent : Entity) (fname : String) : String :=
  ROOT ++ "/" ++ ent.module ++ "/" ++ fname

/-- The derived raw-file path `get_cache_path(dataset_name + '_raw')`. -/
def rawPath (ent : Entity) : String :=
  cachePath ent (ent.datasetName ++ "_raw")

/-- Model of `AI4SCRDataset.load_raw_data`: if `force_download` or
`force_process` is set or the raw cache entry `dataset_name` is missing,
optionally download (only under `force_download`), run `process_raw_data`
and save the result; otherwise load the cached entry. -/
def load_raw_data (env : Env) (ent : Entity) (st : FS Nat) :
    Nat × FS Nat × List Event :=
  let fname := ent.datasetName
  if ent.forceDownload || ent.forceProcess ||
      !(isFile st (cachePath ent fname)) then
    let st1 := if ent.forceDownload then
        setFile st (rawPath ent) env.downloadContent else st
    let evs1 : List Event := if ent.forceDownload then [Event.download] else []
    let data := env.processRaw (getFile st1 (rawPath ent))
    (data, setFile st1 (cachePath ent fname) data,
      evs1 ++ [Event.processRawData, Event.saveCache fname])
  else
    ((getFile st (cachePath ent fname)).getD 0, st, [Event.loadCache fname])

/-- Model of `AI4SCRDataset.load_recipe_data`: memoized on the
recipe-qualified filename; on a miss (or `force_process`) it loads the raw
data, resolves `self.recipes[self.recipe]` (a dict access that raises
`KeyError` when absent), applies it and saves. -/
def load_recipe_data (env : Env) (ent : Entity) (st : FS Nat) :
    Except PyErr Nat × FS Nat × List Event :=
  let r := ent.recipe.getD ""
  let fname := get_recipe_filename ent.datasetName r
  if ent.forceProcess || !(isFile st (cachePath ent fname)) then
    let raw := load_raw_data env ent st
    match lookupRecipe env.recipes r with
    | none => (.error .keyError, raw.2.1, raw.2.2)
    | some f =>
      (.ok (f raw.1), setFile raw.2.1 (cachePath ent fname) (f raw.1),
        raw.2.2 ++ [Event.recipeApply r, Event.saveCache fname])
  else
    (.ok ((getFile st (cachePath ent fname)).getD 0), st,
      [Event.loadCache fname])

/-- Model of `AI4SCRDataset.setup`: `if self.recipe:` (Python truthiness)
selects the recipe pipeline, else the raw pipeline. -/
def setup (env : Env) (ent : Entity) (st : FS Nat) :
    Except PyErr Nat × FS Nat × List Event :=
  if pyTruthyStr ent.recipe then load_recipe_data env ent st
  else
    let raw := load_raw_data env ent st
    (.ok raw.1, raw.2.1, raw.2.2)

/-- The construction steps that follow recipe validation: `cache_root`
creation, then the cooperative `super().__init__()` chain, in which
`DownloadMixIn.__init__` downloads when `force_download` is set or the raw
file is missing, and `BaseDataset.__init__` finally calls `setup()`. -/
def constructBody (env : Env) (ent : Entity) (st : FS Nat) :
    Except PyErr Nat × FS Nat × List Event :=
  let dl := ent.forceDownload || !(isFile st (rawPath ent))
  let st1 := if dl then setFile st (rawPath ent) env.downloadContent else st
  let evs1 : List Event := if dl then [Event.mkdirCache, Event.download]
    else [Event.mkdirCache]
  let s := setup env ent st1
  (s.1, s.2.1, evs1 ++ s.2.2)

/-- Model of `AI4SCRDataset.__init__` (without a caller-supplied `path`
argument): the very first statement validates a supplied recipe name against
the registry and raises `KeyError` on failure, before any directory is
created or any other side effect happens. -/
def construct (env : Env) (ent : Entity) (st : FS Nat) :
    Except PyErr Nat × FS Nat × List Event :=
  match ent.recipe with
  | some r =>
    if (lookupRecipe env.recipes r).isNone then (.error .keyError, st, [])
    else constructBody env ent st
  | none => constructBody env ent st

/-- The cache filename from which `setup()` materializes `self.data`:
the recipe-qualified name when a recipe is selected, else the raw name. -/
def materializedCacheFname (ent : Entity) : String :=
  if pyTruthyStr ent.recipe then
    get_recipe_filename ent.datasetName (ent.recipe.getD "")
  else ent.datasetName

theorem load_raw_data_populates (env : Env) (ent : Entity) (st : FS Nat) :
    getFile (load_raw_data env ent st).2.1 (cachePath ent ent.datasetName) =
      some (load_raw_data env ent st).1 := by
  simp only [load_raw_data]
  split
  · simp [getFile_setFile_self]
  · rename_i h
    have hfile : isFile st (cachePath ent ent.datasetName) = true := by
      cases hcf : isFile st (cachePath ent ent.datasetName)
      · exact absurd (by simp [hcf]) h
      · rfl
    cases hv : getFile st (cachePath ent ent.datasetName) with
    | none => simp [isFile, hv] at hfile
    | some v => simp [hv]

theorem setup_populates (env : Env) (ent : Entity) (st : FS Nat) (d : Nat)
    (hok : (setup env ent st).1 = .ok d) :
    getFile (setup env ent st).2.1
      (cachePath ent (materializedCacheFname ent)) = some d := by
  by_cases htr : pyTruthyStr ent.recipe
  · simp only [setup, materializedCacheFname, htr, if_true] at hok ⊢
    simp only [load_recipe_data] at hok ⊢
    split at hok
    · rename_i hcond
      cases hlook : lookupRecipe env.recipes (ent.recipe.getD "") with
      | none => simp [hcond, hlook] at hok
      | some f =>
        simp only [hcond, if_true, hlook] at hok ⊢
        cases hok
        simp [getFile_setFile_self]
    · rename_i hcond
      have hcond2 : (ent.forceProcess ||
          !(isFile st (cachePath ent
            (get_recipe_filename ent.datasetName (ent.recipe.getD ""))))) =
          false := by
        simpa using hcond
      simp only [hcond2, Bool.false_eq_true, if_false] at hok ⊢
      simp only [Bool.or_eq_false_iff, Bool.not_eq_false] at hcond2
      cases hv : getFile st (cachePath ent
          (get_recipe_filename ent.datasetName (ent.recipe.getD ""))) with
      | none =>
        exfalso
        have := hcond2.2
        simp [isFile, hv] at this
      | some v =>
        simp only [hv, Option.getD_some] at hok
        cases hok
        rfl
  · simp only [setup, materializedCacheFname, htr, if_false,
      Bool.false_eq_true] at hok ⊢
    cases hok
    exact load_raw_data_populates env ent st

theorem setup_cache_hit (env : Env) (ent : Entity) (st : FS Nat) (d : Nat)
    (hfd : ent.forceDownload = false) (hfp : ent.forceProcess = false)
    (hfile : getFile st (cachePath ent (materializedCacheFname ent)) = some d) :
    setup env ent st =
      (.ok d, st, [Event.loadCache (materializedCacheFname ent)]) := by
  by_cases htr : pyTruthyStr ent.recipe
  · simp only [materializedCacheFname, htr, if_true] at hfile ⊢
    simp [setup, htr, load_recipe_data, hfp, isFile, hfile]
  · simp only [materializedCacheFname, htr, if_false,
      Bool.false_eq_true] at hfile ⊢
    simp [setup, htr, load_raw_data, hfd, hfp, isFile, hfile]

theorem setup_ok (env : Env) (ent : Entity) (st : FS Nat)
    (hval : ∀ r, ent.recipe = some r → (lookupRecipe env.recipes r).isSome) :
    ∃ d, (setup env ent st).1 = Except.ok d := by
  by_cases htr : pyTruthyStr ent.recipe
  · cases hrec : ent.recipe with
    | none => simp [pyTruthyStr, hrec] at htr
    | some r =>
      obtain ⟨f, hf⟩ := Option.isSome_iff_exists.mp (hval r hrec)
      have htr2 : pyTruthyStr (some r) = true := by rw [← hrec]; exact htr
      simp only [setup, load_recipe_data, hrec, Option.getD_some, htr2, if_true]
      split
      · exact ⟨f ((load_raw_data env ent st).1), by simp [hf]⟩
      · exact ⟨_, rfl⟩
  · simp [setup, htr]

theorem construct_valid (env : Env) (ent : Entity) (st : FS Nat)
    (hval : ∀ r, ent.recipe = some r → (lookupRecipe env.recipes r).isSome) :
    construct env ent st = constructBody env ent st := by
  cases hrec : ent.recipe with
  | none => simp [construct, hrec]
  | some r =>
    obtain ⟨f, hf⟩ := Option.isSome_iff_exists.mp (hval r hrec)
    simp [construct, hrec, hf]

theorem construct_ok_populates (env : Env) (ent : Entity) (st : FS Nat)
    (hval : ∀ r, ent.recipe = some r → (lookupRecipe env.recipes r).isSome) :
    ∃ d, (construct env ent st).1 = .ok d ∧
      getFile (construct env ent st).2.1
        (cachePath ent (materializedCacheFname ent)) = some d := by
  rw [construct_valid env ent st hval]
  simp only [constructBody]
  obtain ⟨d, hd⟩ := setup_ok env ent
    (if ent.forceDownload || !(isFile st (rawPath ent)) then
      setFile st (rawPath ent) env.downloadContent else st) hval
  exact ⟨d, hd, setup_populates env ent _ d hd⟩

/-- C6: constructing an `AI4SCRDataset` with a recipe name absent from the
registry fails (with the `KeyError` that stands for `UnknownRecipeError`)
before any other construction step: the filesystem is unchanged and no event
— in particular no cache-directory creation — is recorded. -/
theorem C6_unknown_recipe_rejected (env : Env) (ent : Entity) (st : FS Nat)
    (r : String) (hr : ent.recipe = some r)
    (hmiss : lookupRecipe env.recipes r = none) :
    construct env ent st = (.error .keyError, st, []) := by
  simp [construct, hr, hmiss]

theorem C6_unknown_recipe_rejected_witness :
    (Entity.mk "demo" "Demo" (some "missing") false false).recipe =
        some "missing" ∧
      lookupRecipe (Env.mk [] 0 (fun _ => 0)).recipes "missing" = none ∧
      construct (Env.mk [] 0 (fun _ => 0))
          (Entity.mk "demo" "Demo" (some "missing") false false) [] =
        (.error .keyError, [], []) :=
  ⟨rfl, rfl, C6_unknown_recipe_rejected _ _ _ "missing" rfl rfl⟩

/-- C4 counterexample: an entity constructed with `force_download=True` and a
selected recipe whose cache entry already exists (and `force_process=False`):
its `setup()` call performs NO fetch at all — it is a pure recipe cache hit —
contradicting the claim that `setup()` downloads unconditionally. -/
theorem C4_setup_unconditional_fetch_counterexample :
    (setup (Env.mk [("r", fun n => n + 1)] 3 (fun o => o.getD 0))
        (Entity.mk "demo" "Demo" (some "r") true false)
        [("~/.ai4scr/datasets/demo/Demo_r.pkl", 5)]).1 = Except.ok 5 ∧
      Event.download ∉
        (setup (Env.mk [("r", fun n => n + 1)] 3 (fun o => o.getD 0))
          (Entity.mk "demo" "Demo" (some "r") true false)
          [("~/.ai4scr/datasets/demo/Demo_r.pkl", 5)]).2.2 := by
  constructor
  · rfl
  · decide

/-- C4 (amended): with `force_download=True` the Download Fetcher fetch is
performed unconditionally during entity *construction* (by
`DownloadMixIn.__init__`, which runs before `BaseDataset.__init__` invokes
`setup()`), regardless of existing cache entries; and whenever
`load_raw_data` runs it also downloads.  `setup()` itself, however, skips the
fetch when a selected recipe's cache entry exists and `force_process` is
false. -/
theorem C4_force_download_fetches (env : Env) (ent : Entity) (st : FS Nat)
    (hfd : ent.forceDownload = true)
    (hval : ∀ r, ent.recipe = some r → (lookupRecipe env.recipes r).isSome) :
    Event.download ∈ (construct env ent st).2.2 ∧
      Event.download ∈ (load_raw_data env ent st).2.2 := by
  constructor
  · rw [construct_valid env ent st hval]
    simp [constructBody, hfd]
  · simp [load_raw_data, hfd]

theorem C4_force_download_fetches_witness :
    (Entity.mk "demo" "Demo" none true false).forceDownload = true ∧
      Event.download ∈ (construct (Env.mk [] 7 (fun o => o.getD 0))
          (Entity.mk "demo" "Demo" none true false) []).2.2 ∧
      Event.download ∈ (load_raw_data (Env.mk [] 7 (fun o => o.getD 0))
          (Entity.mk "demo" "Demo" none true false) []).2.2 :=
  ⟨rfl,
    (C4_force_download_fetches _ _ _ rfl (fun _ h => Option.noConfusion h)).1,
    (C4_force_download_fetches _ _ _ rfl (fun _ h => Option.noConfusion h)).2⟩

/-- C2: two entities with identical `(module, name, recipe)` and no force
flags derive the same cache paths, and once the first entity's construction
(whose `setup()` populates the cache) has run, the second entity's `setup()`
is a pure cache hit: it returns the cached value, leaves the filesystem
unchanged, and its event log is a single cache read — no download, no
`process_raw_data`, no recipe invocation. -/
theorem C2_second_setup_cache_hit (env : Env) (e1 e2 : Entity) (st : FS Nat)
    (hm : e1.module = e2.module) (hn : e1.datasetName = e2.datasetName)
    (hr : e1.recipe = e2.recipe)
    (hfd2 : e2.forceDownload = false) (hfp2 : e2.forceProcess = false)
    (hval : ∀ r, e1.recipe = some r → (lookupRecipe env.recipes r).isSome) :
    (∀ fname, cachePath e1 fname = cachePath e2 fname) ∧
      rawPath e1 = rawPath e2 ∧
      materializedCacheFname e1 = materializedCacheFname e2 ∧
      ∃ d, (construct env e1 st).1 = .ok d ∧
        getFile (construct env e1 st).2.1
          (cachePath e2 (materializedCacheFname e2)) = some d ∧
        setup env e2 (construct env e1 st).2.1 =
          (.ok d, (construct env e1 st).2.1,
            [Event.loadCache (materializedCacheFname e2)]) := by
  have hcp : ∀ fname, cachePath e1 fname = cachePath e2 fname := by
    intro fname
    simp [cachePath, hm]
  have hrp : rawPath e1 = rawPath e2 := by
    simp [rawPath, hn, hcp]
  have hmf : materializedCacheFname e1 = materializedCacheFname e2 := by
    simp [materializedCacheFname, hr, hn]
  refine ⟨hcp, hrp, hmf, ?_⟩
  obtain ⟨d, hok, hfile⟩ := construct_ok_populates env e1 st hval
  refine ⟨d, hok, ?_, ?_⟩
  · rw [← hcp, ← hmf]
    exact hfile
  · exact setup_cache_hit env e2 _ d hfd2 hfp2 (by rw [← hcp, ← hmf]; exact hfile)

theorem C2_second_setup_cache_hit_witness :
    (∀ r, (Entity.mk "demo" "Demo" (some "shift") false false).recipe =
        some r →
        (lookupRecipe (Env.mk [("shift", fun n => n + 1)] 10
          (fun o => o.getD 0)).recipes r).isSome) ∧
      ((∀ fname,
          cachePath (Entity.mk "demo" "Demo" (some "shift") false false)
              fname =
            cachePath (Entity.mk "demo" "Demo" (some "shift") false false)
              fname) ∧
        rawPath (Entity.mk "demo" "Demo" (some "shift") false false) =
          rawPath (Entity.mk "demo" "Demo" (some "shift") false false) ∧
        materializedCacheFname
            (Entity.mk "demo" "Demo" (some "shift") false false) =
          materializedCacheFname
            (Entity.mk "demo" "Demo" (some "shift") false false) ∧
        ∃ d,
          (construct (Env.mk [("shift", fun n => n + 1)] 10
              (fun o => o.getD 0))
            (Entity.mk "demo" "Demo" (some "shift") false false) []).1 =
            .ok d ∧
          getFile
              (construct (Env.mk [("shift", fun n => n + 1)] 10
                  (fun o => o.getD 0))
                (Entity.mk "demo" "Demo" (some "shift") false false) []).2.1
              (cachePath (Entity.mk "demo" "Demo" (some "shift") false false)
                (materializedCacheFname
                  (Entity.mk "demo" "Demo" (some "shift") false false))) =
            some d ∧
          setup (Env.mk [("shift", fun n => n + 1)] 10 (fun o => o.getD 0))
              (Entity.mk "demo" "Demo" (some "shift") false false)
              (construct (Env.mk [("shift", fun n => n + 1)] 10
                  (fun o => o.getD 0))
                (Entity.mk "demo" "Demo" (some "shift") false false) []).2.1 =
            (.ok d,
              (construct (Env.mk [("shift", fun n => n + 1)] 10
                  (fun o => o.getD 0))
                (Entity.mk "demo" "Demo" (some "shift") false false) []).2.1,
              [Event.loadCache
                (materializedCacheFname
                  (Entity.mk "demo" "Demo" (some "shift") false false))])) :=
  ⟨fun r h => by cases h; rfl,
    C2_second_setup_cache_hit _ _ _ [] rfl rfl rfl rfl rfl
      (fun r h => by cases h; rfl)⟩

/-! ## The raw-path derivation of `AI4SCRDataset.__init__` (C3) -/

/-- Model of the raw-path derivation step of `AI4SCRDataset.__init__`
(lines 242–248).  `classPath` is the value the attribute lookup `self.path`
yields at the time of the check — for `AI4SCRDataset` this is the class
attribute `path = None` inherited from `BaseDataset`/`DownloadMixIn`, since
the instance attribute is only assigned afterwards.  `arg` is the
caller-supplied `path` argument.  The code runs `if path:` and then tests
`self.path.is_file()` — the class attribute, not the argument: on `None`
this raises `AttributeError`; only afterwards would it assign
`self.path = path`. -/
def ai4scr_init_path (fs : FS Nat) (classPath : Option String)
    (arg : Option String) (ent : Entity) : Except PyErr String :=
  if pyTruthyStr arg then
    match classPath with
    | none => .error .attributeError
    | some cp =>
      if isFile fs cp then .ok (arg.getD "") else .error .fileNotFoundError
  else .ok (rawPath ent)

/-- C3: constructing an `AI4SCRDataset` (class attribute `path = None`) with
a caller-supplied path whose file exists does NOT proceed — the check
`self.path.is_file()` subscripts the still-`None` class attribute and raises
`AttributeError`, neither accepting the existing file nor raising the
documented `FileNotFoundError`. -/
theorem C3_supplied_path_attribute_error :
    isFile [("/tmp/data.csv", 1)] "/tmp/data.csv" = true ∧
      ai4scr_init_path [("/tmp/data.csv", 1)] none (some "/tmp/data.csv")
          (Entity.mk "demo" "Demo" none false false) =
        .error .attributeError :=
  ⟨rfl, rfl⟩

end AI4SCRData
